import Mathlib

/-!
Verification development for the support-chatbot repository
(`mcp_client.py` and `app.py`): a shallow embedding of the
JSON-RPC transport client, the tool catalog and its two schema
exports, the tool-invocation bridge, the per-turn orchestration
loop with its retry skeleton, and the session/verification state,
together with theorems settling the specification claims.
-/

/-! ## JSON-like values

RPC payloads, responses and tool parameter schemas are Python
dicts/lists/strings; we embed them as a small JSON value type. -/

/-- JSON values as used for RPC params, responses and parameter schemas. -/
inductive JVal where
  | jnull
  | jbool (b : Bool)
  | jnum (n : Int)
  | jstr (s : String)
  | jarr (elems : List JVal)
  | jobj (fields : List (String × JVal))

/-- Python `d.get(key, default)`; the source only applies it to dicts. -/
def JVal.getd (v : JVal) (key : String) (default : JVal) : JVal :=
  match v with
  | .jobj fields =>
    match fields.lookup key with
    | some x => x
    | none => default
  | _ => default

/-- Python `key in d` on a dict. -/
def JVal.hasKey (v : JVal) (key : String) : Bool :=
  match v with
  | .jobj fields => fields.any (fun f => f.1 == key)
  | _ => false

/-- View a JSON value as an array (the source indexes `content` as a list). -/
def JVal.asArr (v : JVal) : List JVal :=
  match v with
  | .jarr xs => xs
  | _ => []

/-- View a JSON value as a string, with a default for non-string values. -/
def JVal.asStr (v : JVal) (default : String) : String :=
  match v with
  | .jstr s => s
  | _ => default

/-! ## Substring containment

Python `needle in haystack` on strings. -/

/-- Whether `needle` occurs as a contiguous sublist of the character list. -/
def charsInfix (needle : List Char) : List Char → Bool
  | [] => needle.isEmpty
  | a :: rest => needle.isPrefixOf (a :: rest) || charsInfix needle rest

/-- Python `needle in haystack` for strings. -/
def strContains (haystack needle : String) : Bool :=
  charsInfix needle.toList haystack.toList

/-! ## Transport Client (`mcp_client.py`, class `MCPClient`)

The HTTP POST returning a parsed JSON body is modelled as a function
`transport : RPCRequest → JVal` supplied by the environment; the
operations additionally return the list of requests they sent so that
trace properties (request ids, handshake ordering) can be stated. -/

/-- A JSON-RPC request as built by `MCPClient._send_request`. -/
structure RPCRequest where
  jsonrpc : String
  method : String
  params : JVal
  id : Nat

/-- The mutable fields of `MCPClient`: `self._request_id` starts at 0 and
`self._initialized` starts `False` (`__init__`). -/
structure MCPClient where
  server_url : String
  request_id : Nat
  client_ready : Bool

/-- `MCPClient.__init__(server_url)`. -/
def MCPClient.mk0 (server_url : String) : MCPClient :=
  { server_url := server_url, request_id := 0, client_ready := false }

/-- `MCPClient._next_id`: increment the counter, then return it. -/
def MCPClient.next_id (c : MCPClient) : Nat × MCPClient :=
  (c.request_id + 1, { c with request_id := c.request_id + 1 })

/-- `MCPClient._send_request(method, params)`: build the JSON-RPC 2.0 payload
with the next id and POST it; returns the parsed response body, the updated
client, and the request that was sent. -/
def MCPClient.send_request (transport : RPCRequest → JVal) (c : MCPClient)
    (method : String) (params : JVal) : JVal × MCPClient × RPCRequest :=
  let idAndClient := c.next_id
  let payload : RPCRequest :=
    { jsonrpc := "2.0", method := method, params := params, id := idAndClient.1 }
  (transport payload, idAndClient.2, payload)

/-- The params of the `initialize` handshake (`MCPClient.initialize`). -/
def MCPClient.handshakeParams : JVal :=
  .jobj [("protocolVersion", .jstr "2024-11-05"),
         ("capabilities", .jobj []),
         ("clientInfo", .jobj [("name", .jstr "support-chatbot"),
                               ("version", .jstr "1.0.0")])]

/-- `MCPClient.initialize()`: send the handshake and mark the client ready
(`self._initialized = True`). -/
def MCPClient.handshake (transport : RPCRequest → JVal) (c : MCPClient) :
    JVal × MCPClient × List RPCRequest :=
  let sent := c.send_request transport "initialize" MCPClient.handshakeParams
  (sent.1, { sent.2.1 with client_ready := true }, [sent.2.2])

/-- The lazy-init guard shared by `list_tools` and `call_tool`:
`if not self._initialized: await self.initialize()`. -/
def MCPClient.ensureReady (transport : RPCRequest → JVal) (c : MCPClient) :
    MCPClient × List RPCRequest :=
  if c.client_ready then (c, [])
  else
    let h := c.handshake transport
    (h.2.1, h.2.2)

/-- `MCPClient.list_tools()`: lazy handshake, then `tools/list`, extracting
`result["result"]["tools"]` with `[]` default. -/
def MCPClient.list_tools (transport : RPCRequest → JVal) (c : MCPClient) :
    List JVal × MCPClient × List RPCRequest :=
  let ready := c.ensureReady transport
  let sent := ready.1.send_request transport "tools/list" (.jobj [])
  (((sent.1.getd "result" (.jobj [])).getd "tools" (.jarr [])).asArr,
   sent.2.1, ready.2 ++ [sent.2.2])

/-- The two shapes `MCPClient.call_tool` returns: `{"error": ...}` or
`{"result": <string>}`. -/
inductive ToolCallResult where
  | err (e : JVal)
  | ok (result : String)

/-- `MCPClient.call_tool(tool_name, arguments)`: lazy handshake, send
`tools/call` with `{name, arguments}`; on a top-level `error` field return it
as an error outcome, otherwise extract `content[0].get("text", "")`, or the
sentinel `"No content returned"` when the content list is empty. -/
def MCPClient.call_tool (transport : RPCRequest → JVal) (c : MCPClient)
    (tool_name : String) (arguments : List (String × JVal)) :
    ToolCallResult × MCPClient × List RPCRequest :=
  let ready := c.ensureReady transport
  let sent := ready.1.send_request transport "tools/call"
    (.jobj [("name", .jstr tool_name), ("arguments", .jobj arguments)])
  let response := sent.1
  let out : ToolCallResult :=
    if response.hasKey "error" then .err (response.getd "error" .jnull)
    else
      match ((response.getd "result" (.jobj [])).getd "content" (.jarr [])).asArr with
      | c0 :: _ => .ok ((c0.getd "text" (.jstr "")).asStr "")
      | [] => .ok "No content returned"
  (out, sent.2.1, ready.2 ++ [sent.2.2])

/-- An externally triggered client operation (the two substantive calls). -/
inductive ClientOp where
  | listToolsOp
  | callToolOp (tool_name : String) (arguments : List (String × JVal))

/-- Run one operation, keeping the updated client and the requests sent. -/
def MCPClient.runOp (transport : RPCRequest → JVal) (c : MCPClient) :
    ClientOp → MCPClient × List RPCRequest
  | .listToolsOp =>
    let r := c.list_tools transport
    (r.2.1, r.2.2)
  | .callToolOp tool_name arguments =>
    let r := c.call_tool transport tool_name arguments
    (r.2.1, r.2.2)

/-- Run a sequence of operations on one client instance, concatenating the
traces of sent requests. -/
def MCPClient.runOps (transport : RPCRequest → JVal) (c : MCPClient) :
    List ClientOp → MCPClient × List RPCRequest
  | [] => (c, [])
  | op :: rest =>
    let first := c.runOp transport op
    let next := first.1.runOps transport rest
    (next.1, first.2 ++ next.2)

/-! ## Tool Catalog (`mcp_client.py`, `MCP_TOOLS`) -/

/-- One entry of the `MCP_TOOLS` table. -/
structure MCPToolDef where
  name : String
  description : String
  parameters : JVal

/-- The static catalog of the 8 operations, parameter schemas included. -/
def MCP_TOOLS : List MCPToolDef := [
  { name := "list_products",
    description := "List products with optional filters. Use this to browse inventory by category or check stock levels.",
    parameters := .jobj [
      ("type", .jstr "object"),
      ("properties", .jobj [
        ("category", .jobj [("type", .jstr "string"),
          ("description", .jstr "Filter by category (e.g., 'Computers', 'Monitors', 'Printers', 'Accessories', 'Networking')")]),
        ("is_active", .jobj [("type", .jstr "boolean"),
          ("description", .jstr "Filter by active status (true/false)")])])] },
  { name := "get_product",
    description := "Get detailed product information by SKU. Use this to get current price, check inventory for specific item, or verify product details.",
    parameters := .jobj [
      ("type", .jstr "object"),
      ("properties", .jobj [
        ("sku", .jobj [("type", .jstr "string"),
          ("description", .jstr "Product SKU (e.g., 'COM-0001', 'MON-0054')")])]),
      ("required", .jarr [.jstr "sku"])] },
  { name := "search_products",
    description := "Search products by name or description. Use this for natural language product lookup.",
    parameters := .jobj [
      ("type", .jstr "object"),
      ("properties", .jobj [
        ("query", .jobj [("type", .jstr "string"),
          ("description", .jstr "Search term (case-insensitive, partial match)")])]),
      ("required", .jarr [.jstr "query"])] },
  { name := "get_customer",
    description := "Get customer information by ID. Use this to look up customer details or verify shipping address.",
    parameters := .jobj [
      ("type", .jstr "object"),
      ("properties", .jobj [
        ("customer_id", .jobj [("type", .jstr "string"),
          ("description", .jstr "Customer UUID")])]),
      ("required", .jarr [.jstr "customer_id"])] },
  { name := "verify_customer_pin",
    description := "Verify customer identity with email and PIN. Use this to authenticate customer before order placement.",
    parameters := .jobj [
      ("type", .jstr "object"),
      ("properties", .jobj [
        ("email", .jobj [("type", .jstr "string"),
          ("description", .jstr "Customer email address")]),
        ("pin", .jobj [("type", .jstr "string"),
          ("description", .jstr "4-digit PIN code")])]),
      ("required", .jarr [.jstr "email", .jstr "pin"])] },
  { name := "list_orders",
    description := "List orders with optional filters. Use this to view customer order history or track pending orders.",
    parameters := .jobj [
      ("type", .jstr "object"),
      ("properties", .jobj [
        ("customer_id", .jobj [("type", .jstr "string"),
          ("description", .jstr "Filter by customer UUID")]),
        ("status", .jobj [("type", .jstr "string"),
          ("description", .jstr "Filter by status (draft|submitted|approved|fulfilled|cancelled)")])])] },
  { name := "get_order",
    description := "Get detailed order information including items. Use this to view order details or check order contents.",
    parameters := .jobj [
      ("type", .jstr "object"),
      ("properties", .jobj [
        ("order_id", .jobj [("type", .jstr "string"),
          ("description", .jstr "Order UUID")])]),
      ("required", .jarr [.jstr "order_id"])] },
  { name := "create_order",
    description := "Create a new order with items. Customer must be verified first. Order starts in 'submitted' status.",
    parameters := .jobj [
      ("type", .jstr "object"),
      ("properties", .jobj [
        ("customer_id", .jobj [("type", .jstr "string"),
          ("description", .jstr "Customer UUID (must be verified first)")]),
        ("items", .jobj [("type", .jstr "array"),
          ("description", .jstr "List of items to order"),
          ("items", .jobj [
            ("type", .jstr "object"),
            ("properties", .jobj [
              ("sku", .jobj [("type", .jstr "string"), ("description", .jstr "Product SKU")]),
              ("quantity", .jobj [("type", .jstr "integer"), ("description", .jstr "Quantity (must be > 0)")]),
              ("unit_price", .jobj [("type", .jstr "string"), ("description", .jstr "Price as string")]),
              ("currency", .jobj [("type", .jstr "string"), ("description", .jstr "Currency code (default: USD)")])]),
            ("required", .jarr [.jstr "sku", .jstr "quantity", .jstr "unit_price"])])])]),
      ("required", .jarr [.jstr "customer_id", .jstr "items"])] }]

/-- The `function` part of an OpenAI-dialect tool entry (`get_openai_tools`). -/
structure OpenAIFunctionSpec where
  name : String
  description : String
  parameters : JVal

/-- One OpenAI-dialect tool entry `{type: "function", function: {...}}`. -/
structure OpenAIToolSpec where
  type : String
  function : OpenAIFunctionSpec

/-- `app.get_openai_tools()`: wrap each catalog entry in the OpenAI dialect. -/
def get_openai_tools : List OpenAIToolSpec :=
  MCP_TOOLS.map fun tool =>
    { type := "function",
      function := { name := tool.name, description := tool.description,
                    parameters := tool.parameters } }

/-- A Gemini `FunctionDeclaration(name, description, parameters)`. -/
structure FunctionDeclaration where
  name : String
  description : String
  parameters : JVal

/-- A Gemini `Tool(function_declarations=[...])`. -/
structure GeminiTool where
  function_declarations : List FunctionDeclaration

/-- `mcp_client.get_tool_definitions_for_gemini()`: one declaration per
catalog entry. -/
def get_tool_definitions_for_gemini : GeminiTool :=
  { function_declarations :=
      MCP_TOOLS.map fun tool =>
        { name := tool.name, description := tool.description,
          parameters := tool.parameters } }

/-- The `required` field of a parameter schema, as a list of names. -/
def requiredFields (parameters : JVal) : List String :=
  (parameters.getd "required" (.jarr [])).asArr.filterMap fun v =>
    match v with
    | .jstr s => some s
    | _ => none

/-! ## Session/Verification State (`app.py`, session-state block) -/

/-- One entry of `st.session_state.messages`: a role/content dict. -/
structure Msg where
  role : String
  content : String
deriving DecidableEq

/-- The per-conversation session state held by the presentation layer:
`messages`, `customer_verified`, `customer_info`. -/
structure SessionState where
  messages : List Msg
  customer_verified : Bool
  customer_info : Option String
deriving DecidableEq

/-- The session-state defaults: `[]`, `False`, `None`. -/
def initialSessionState : SessionState :=
  { messages := [], customer_verified := false, customer_info := none }

/-- The verification detection step of `chat_with_openrouter` run after each
tool execution: when the tool is `verify_customer_pin` and the result string
contains `"Customer ID:"`, set the flag and store the raw result string. -/
def applyVerificationCheck (st : SessionState) (tool_name result : String) :
    SessionState :=
  if tool_name == "verify_customer_pin" && strContains result "Customer ID:" then
    { st with customer_verified := true, customer_info := some result }
  else st

/-- The externally triggered modifications of the session state found in
`app.py`: the chat handlers append user/assistant messages, tool executions
run the verification detection, and the Clear Chat button resets everything. -/
inductive SessionAction where
  | appendUserMessage (content : String)
  | appendAssistantMessage (content : String)
  | toolExecuted (tool_name result : String)
  | clearChat

/-- One session-state transition. `clearChat` embeds the Clear Chat handler:
`messages = []`, `customer_verified = False`, `customer_info = None`. -/
def sessionStep (st : SessionState) : SessionAction → SessionState
  | .appendUserMessage s =>
    { st with messages := st.messages ++ [{ role := "user", content := s }] }
  | .appendAssistantMessage s =>
    { st with messages := st.messages ++ [{ role := "assistant", content := s }] }
  | .toolExecuted tool_name result => applyVerificationCheck st tool_name result
  | .clearChat =>
    { messages := [], customer_verified := false, customer_info := none }

/-- Run a sequence of session actions from a starting state. -/
def runSession (st : SessionState) : List SessionAction → SessionState
  | [] => st
  | a :: rest => runSession (sessionStep st a) rest

/-! ## System prompt (`app.get_system_prompt`) -/

/-- Python truthiness of the optional `customer_info` string
(`None` and `""` are falsy). -/
def pyTruthy (s : Option String) : Bool :=
  match s with
  | none => false
  | some t => !(t == "")

/-- The `customer_context` block of `get_system_prompt`: filled in only when
`customer_verified` and `customer_info` are both truthy. -/
def customerContext (st : SessionState) : String :=
  if st.customer_verified && pyTruthy st.customer_info then
    "\nVERIFIED CUSTOMER CONTEXT:\n" ++ (st.customer_info.getD "") ++
    "\nThe customer has been verified and can place orders.\n"
  else ""

/-- `app.get_system_prompt()`: the fixed prompt text with the customer
context interpolated. -/
def get_system_prompt (st : SessionState) : String :=
  "You are a helpful and friendly customer support agent for TechSupport Pro, a company that sells computer products including computers, monitors, printers, accessories, and networking equipment.\n\n" ++
  "Your capabilities:\n" ++
  "1. Help customers browse and search for products\n" ++
  "2. Provide detailed product information and pricing\n" ++
  "3. Verify customer identity using their email and PIN\n" ++
  "4. View customer order history\n" ++
  "5. Help customers place new orders (only after verification)\n\n" ++
  "Guidelines:\n" ++
  "- Be friendly, professional, and helpful\n" ++
  "- Always verify customer identity (email + PIN) before accessing their account or placing orders\n" ++
  "- Provide clear pricing information in USD\n" ++
  "- If a customer wants to order, ensure they're verified first\n" ++
  "- Suggest relevant products based on customer needs\n" ++
  "- Keep responses concise but informative\n\n" ++
  "Available product categories:\n" ++
  "- Computers (desktops, laptops, workstations, gaming PCs, MacBooks)\n" ++
  "- Monitors (24\", 27\", 32\", ultrawide, 4K, curved, portable, touch screen)\n" ++
  "- Printers (laser, inkjet, all-in-one, photo, large format, 3D, label, receipt)\n" ++
  "- Accessories (keyboards, mice, webcams, headsets, USB hubs, docking stations, KVM switches)\n" ++
  "- Networking (routers, switches, access points, modems)\n\n" ++
  customerContext st ++
  "\n\nWhen you need to perform actions, use the available tools:\n" ++
  "- verify_customer_pin: Verify customer with email and PIN\n" ++
  "- list_products: List products by category\n" ++
  "- search_products: Search products by name/description\n" ++
  "- get_product: Get product details by SKU\n" ++
  "- list_orders: View customer orders\n" ++
  "- create_order: Place a new order (requires verified customer)\n"

/-! ## Message-list construction (`chat_with_openrouter` lines 317-325 and
the chat input handler lines 631-643) -/

/-- Python `l[-n:]`. -/
def lastN (n : Nat) (l : List α) : List α :=
  l.drop (l.length - n)

/-- The message list built at the top of `chat_with_openrouter`:
`[system prompt] + st.session_state.messages[-6:] + [new user message]`,
reading the session state as it is when the function is entered. -/
def buildChatMessages (st : SessionState) (user_message : String) : List Msg :=
  { role := "system", content := get_system_prompt st } ::
    (lastN 6 st.messages ++ [{ role := "user", content := user_message }])

/-- The chat input handler: it first appends the new user message to
`st.session_state.messages` and only then calls `chat_with_openrouter`,
which builds the dispatched message list from the updated state. Returns
the list dispatched on the first send and the updated session state. -/
def handleChatInput (st : SessionState) (prompt : String) : List Msg × SessionState :=
  let st1 := sessionStep st (.appendUserMessage prompt)
  (buildChatMessages st1 prompt, st1)

/-! ## Tool Invocation Bridge (`chat_with_openrouter` loop body) -/

/-- One structured tool call of an assistant message
(`tc.id`, `tc.function.name`, `tc.function.arguments` as the raw string). -/
structure AssistantToolCall where
  id : String
  fn_name : String
  fn_arguments : String

/-- A provider response message: optional text content plus tool calls. -/
structure AssistantMessage where
  content : Option String
  tool_calls : List AssistantToolCall

/-- The argument-decoding step (`json.loads` wrapped in `try/except`): a
failed parse is replaced by the empty argument mapping `{}`. -/
def parseToolArguments (parse : String → Option (List (String × JVal)))
    (raw : String) : List (String × JVal) :=
  match parse raw with
  | some args => args
  | none => []

/-- One entry of `all_tool_results`: tool name, decoded arguments, result. -/
structure ToolOutcome where
  tool : String
  arguments : List (String × JVal)
  result : String

/-- Execute one requested tool call: decode the arguments (empty mapping on
parse failure) and run the tool, producing an outcome. `runTool` abstracts
`run_async(call_mcp_tool(...))`, which always returns a result string. -/
def executeToolCall (parse : String → Option (List (String × JVal)))
    (runTool : String → List (String × JVal) → String)
    (tc : AssistantToolCall) : ToolOutcome :=
  let args := parseToolArguments parse tc.fn_arguments
  { tool := tc.fn_name, arguments := args, result := runTool tc.fn_name args }

/-- Execute every tool call requested in one round, in order. -/
def executeToolCalls (parse : String → Option (List (String × JVal)))
    (runTool : String → List (String × JVal) → String)
    (tcs : List AssistantToolCall) : List ToolOutcome :=
  tcs.map (executeToolCall parse runTool)

/-! ## Orchestration loop (`chat_with_openrouter` lines 348-421) -/

/-- `max_iterations = 5`. -/
def max_iterations : Nat := 5

/-- The tool-processing `while` loop: while the current assistant message has
tool calls and the round counter is below the cap, execute the round and move
to the next provider response. `next i` is the provider response following the
round executed with counter value `i`; `fuel` is `max_iterations - iteration`.
Returns the final assistant message and the final round counter. -/
def toolLoop (next : Nat → AssistantMessage) :
    Nat → Nat → AssistantMessage → AssistantMessage × Nat
  | 0, iteration, am => (am, iteration)
  | fuel + 1, iteration, am =>
    if am.tool_calls.isEmpty then (am, iteration)
    else toolLoop next fuel (iteration + 1) (next iteration)

/-- Run the tool loop as `chat_with_openrouter` does: counter from 0,
cap `max_iterations`, starting from the first provider response. -/
def runToolRounds (first : AssistantMessage) (next : Nat → AssistantMessage) :
    AssistantMessage × Nat :=
  toolLoop next max_iterations 0 first

/-- Python `x or default` on the optional content string. -/
def pyOr (s : Option String) (default : String) : String :=
  match s with
  | none => default
  | some t => if t == "" then default else t

/-- The fallback apology used when the final assistant message has no text:
`assistant_message.content or "I apologize, ..."`. -/
def apologyMessage : String := "I apologize, but I couldn't generate a response."

/-- The final response text extracted after the loop (before the optional
tools-used appendix, which the spec treats as presentation only). -/
def finalResponseText (first : AssistantMessage) (next : Nat → AssistantMessage) :
    String :=
  pyOr (runToolRounds first next).1.content apologyMessage

/-! ## Retry skeleton (`chat_with_openrouter` lines 330-441) -/

/-- `max_retries = 3`. -/
def max_retries : Nat := 3

/-- The generic error message returned after the last failed attempt. -/
def genericErrorMessage (e : String) : String :=
  "⚠️ **Error**\n\nAn error occurred: " ++ e ++
  "\n\n*Please check your API key and try again.*"

/-- The message of the unreachable fall-through after the `for` loop. -/
def noResponseMessage : String :=
  "I apologize, but I couldn't generate a response. Please try again."

/-- Result of the retry loop: the returned text, the sleeps performed between
attempts (`time.sleep(2)`), and the number of attempts executed. -/
structure RetryResult where
  response : String
  sleeps : List Nat
  attempts : Nat

/-- The `for attempt in range(max_retries)` loop: each attempt either returns
a response or raises; on an exception the code sleeps 2 seconds and retries
unless this was the last attempt, in which case it returns the generic error
message. `fuel` is the number of remaining loop indices. -/
def retryFrom (attemptResult : Nat → Except String String) (maxR : Nat) :
    Nat → Nat → RetryResult
  | _, 0 => { response := noResponseMessage, sleeps := [], attempts := 0 }
  | attempt, fuel + 1 =>
    match attemptResult attempt with
    | .ok r => { response := r, sleeps := [], attempts := 1 }
    | .error e =>
      if attempt < maxR - 1 then
        let rest := retryFrom attemptResult maxR (attempt + 1) fuel
        { response := rest.response, sleeps := 2 :: rest.sleeps,
          attempts := rest.attempts + 1 }
      else { response := genericErrorMessage e, sleeps := [], attempts := 1 }

/-- The retry skeleton of `chat_with_openrouter`, with the attempt body
abstracted as `attemptResult`: `.ok text` when the attempt returns a final
response, `.error msg` when it raises an exception with message `msg`. -/
def chatRetryLoop (attemptResult : Nat → Except String String) : RetryResult :=
  retryFrom attemptResult max_retries 0 max_retries

/-! ## Theorems settling the claims -/

/-- An already-handshaken client skips the lazy handshake and sends nothing. -/
theorem ensureReady_of_ready (transport : RPCRequest → JVal) (c : MCPClient)
    (h : c.client_ready = true) : c.ensureReady transport = (c, []) := by
  simp [MCPClient.ensureReady, h]

/-- A fresh client performs the handshake: one `initialize` request with the
next id, after which the client is marked ready. -/
theorem ensureReady_of_fresh (transport : RPCRequest → JVal) (c : MCPClient)
    (h : c.client_ready = false) :
    c.ensureReady transport =
      ({ c with request_id := c.request_id + 1, client_ready := true },
       [{ jsonrpc := "2.0", method := "initialize",
          params := MCPClient.handshakeParams, id := c.request_id + 1 }]) := by
  simp [MCPClient.ensureReady, h, MCPClient.handshake, MCPClient.send_request,
    MCPClient.next_id]

/-- One operation advances the id counter by the number of requests it sends,
those requests carry the consecutive ids starting right after the counter,
and the client is ready afterwards. -/
theorem runOp_trace (transport : RPCRequest → JVal) (c : MCPClient) (op : ClientOp) :
    (c.runOp transport op).1.request_id =
      c.request_id + (c.runOp transport op).2.length ∧
    (c.runOp transport op).2.map RPCRequest.id =
      List.range' (c.request_id + 1) (c.runOp transport op).2.length ∧
    (c.runOp transport op).1.client_ready = true := by
  rcases hr : c.client_ready with _ | _ <;> cases op <;>
    simp [MCPClient.runOp, MCPClient.list_tools, MCPClient.call_tool,
      ensureReady_of_ready, ensureReady_of_fresh, hr,
      MCPClient.send_request, MCPClient.next_id, List.range']

/-- Over any operation sequence, the ids of the sent requests are exactly the
consecutive integers following the starting counter value. -/
theorem runOps_trace (transport : RPCRequest → JVal) :
    ∀ (ops : List ClientOp) (c : MCPClient),
    (c.runOps transport ops).1.request_id =
      c.request_id + (c.runOps transport ops).2.length ∧
    (c.runOps transport ops).2.map RPCRequest.id =
      List.range' (c.request_id + 1) (c.runOps transport ops).2.length
  | [], c => by simp [MCPClient.runOps]
  | op :: rest, c => by
    obtain ⟨h1, h2, _⟩ := runOp_trace transport c op
    obtain ⟨ih1, ih2⟩ := runOps_trace transport rest (c.runOp transport op).1
    refine ⟨?_, ?_⟩
    · simp only [MCPClient.runOps, List.length_append]
      omega
    · simp only [MCPClient.runOps, List.map_append, List.length_append, h2, ih2, h1]
      have := List.range'_append (c.request_id + 1) (c.runOp transport op).2.length
        ((c.runOp transport op).1.runOps transport rest).2.length 1
      simp only [one_mul] at this
      rw [show c.request_id + 1 + (c.runOp transport op).2.length =
        c.request_id + (c.runOp transport op).2.length + 1 by omega] at this
      rw [this]
      congr 1
      omega

/-- Claim C5: over every sequence of operations on a single client instance,
the JSON-RPC request ids are exactly 1, 2, ..., n — a strictly increasing
sequence of integers starting at 1 with no repeats; the counter is never
reset during the client's lifetime. -/
theorem mcp_request_ids_strictly_increasing (transport : RPCRequest → JVal)
    (url : String) (ops : List ClientOp) :
    ((MCPClient.mk0 url).runOps transport ops).2.map RPCRequest.id =
      List.range' 1 ((MCPClient.mk0 url).runOps transport ops).2.length ∧
    (((MCPClient.mk0 url).runOps transport ops).2.map RPCRequest.id).Pairwise (· < ·) ∧
    (((MCPClient.mk0 url).runOps transport ops).2.map RPCRequest.id).Nodup := by
  obtain ⟨-, h⟩ := runOps_trace transport ops (MCPClient.mk0 url)
  have h0 : (MCPClient.mk0 url).request_id = 0 := rfl
  rw [h0] at h
  simp only [Nat.zero_add] at h
  refine ⟨h, ?_, ?_⟩
  · rw [h]; exact List.pairwise_lt_range' 1 _
  · rw [h]; exact List.nodup_range' 1 _

/-- After the client is marked ready it stays ready and never sends another
`initialize` request. -/
theorem runOps_ready_no_handshake (transport : RPCRequest → JVal) :
    ∀ (ops : List ClientOp) (c : MCPClient), c.client_ready = true →
    (c.runOps transport ops).1.client_ready = true ∧
    ∀ r ∈ (c.runOps transport ops).2, r.method ≠ "initialize"
  | [], c, h => by simp [MCPClient.runOps, h]
  | op :: rest, c, h => by
    have hop : ∀ r ∈ (c.runOp transport op).2, r.method ≠ "initialize" := by
      cases op <;>
        · intro r hr
          simp [MCPClient.runOp, MCPClient.list_tools, MCPClient.call_tool,
            ensureReady_of_ready _ _ h, MCPClient.send_request,
            MCPClient.next_id] at hr
          subst hr
          simp
    have hready : (c.runOp transport op).1.client_ready = true :=
      (runOp_trace transport c op).2.2
    obtain ⟨ih1, ih2⟩ := runOps_ready_no_handshake transport rest
      (c.runOp transport op).1 hready
    refine ⟨by simpa [MCPClient.runOps] using ih1, ?_⟩
    simp only [MCPClient.runOps, List.mem_append]
    rintro r (hr | hr)
    · exact hop r hr
    · exact ih2 r hr

/-- The first operation of a fresh client sends exactly the handshake followed
by one substantive request. -/
theorem runOp_fresh_methods (transport : RPCRequest → JVal) (c : MCPClient)
    (h : c.client_ready = false) (op : ClientOp) :
    ∃ m, (c.runOp transport op).2.map RPCRequest.method = ["initialize", m] ∧
      m ≠ "initialize" := by
  cases op
  · refine ⟨"tools/list", ?_, by decide⟩
    simp [MCPClient.runOp, MCPClient.list_tools, ensureReady_of_fresh _ _ h,
      MCPClient.send_request, MCPClient.next_id]
  · refine ⟨"tools/call", ?_, by decide⟩
    simp [MCPClient.runOp, MCPClient.call_tool, ensureReady_of_fresh _ _ h,
      MCPClient.send_request, MCPClient.next_id]

/-- From a fresh client, the method trace is empty or starts with one
`initialize` that never recurs. -/
theorem runOps_fresh_methods (transport : RPCRequest → JVal) (url : String) :
    ∀ (ops : List ClientOp),
    (ops = [] ∧ ((MCPClient.mk0 url).runOps transport ops).2.map RPCRequest.method = []) ∨
    ∃ ms, ((MCPClient.mk0 url).runOps transport ops).2.map RPCRequest.method =
        "initialize" :: ms ∧ "initialize" ∉ ms
  | [] => by left; simp [MCPClient.runOps]
  | op :: rest => by
    right
    have hfresh : (MCPClient.mk0 url).client_ready = false := rfl
    obtain ⟨m, hm, hmne⟩ := runOp_fresh_methods transport _ hfresh op
    have hready : ((MCPClient.mk0 url).runOp transport op).1.client_ready = true :=
      (runOp_trace transport _ op).2.2
    obtain ⟨-, hnone⟩ := runOps_ready_no_handshake transport rest _ hready
    refine ⟨m :: (((MCPClient.mk0 url).runOp transport op).1.runOps transport rest).2.map
      RPCRequest.method, ?_, ?_⟩
    · simp only [MCPClient.runOps, List.map_append, hm]
      rfl
    · intro hmem
      rcases List.mem_cons.mp hmem with hm1 | hm2
      · exact hmne hm1.symm
      · obtain ⟨r, hr, hrm⟩ := List.mem_map.mp hm2
        exact hnone r hr hrm

/-- Claim C6: for every client instance and sequence of `list_tools` and
`call_tool` invocations, the `initialize` handshake request is sent at most
once, and any occurrence is the very first request sent — in particular it
precedes the first `tools/call` or `tools/list` request. -/
theorem mcp_handshake_once_and_first (transport : RPCRequest → JVal)
    (url : String) (ops : List ClientOp) :
    (((MCPClient.mk0 url).runOps transport ops).2.map RPCRequest.method).count
        "initialize" ≤ 1 ∧
    ∀ pre post,
      ((MCPClient.mk0 url).runOps transport ops).2.map RPCRequest.method =
        pre ++ "initialize" :: post → pre = [] := by
  rcases runOps_fresh_methods transport url ops with ⟨-, h⟩ | ⟨tail, h, hnot⟩
  · refine ⟨by simp [h], ?_⟩
    intro pre post heq
    rw [h] at heq
    exact absurd heq.symm (by simp)
  · refine ⟨?_, ?_⟩
    · rw [h]
      simp [List.count_cons, List.count_eq_zero.mpr hnot]
    · intro pre post heq
      rw [h] at heq
      cases pre with
      | nil => rfl
      | cons a pre' =>
        rw [List.cons_append] at heq
        obtain ⟨-, htail⟩ := List.cons.inj heq
        exact absurd (htail ▸ List.mem_append_right pre'
          (List.mem_cons_self _ _)) hnot

/-- Claim C7: for every `call_tool(name, arguments)` invocation, a response
with a top-level `error` field yields the normalized error outcome; otherwise
the text field of the first content item is returned as the result string,
and an empty content list yields the fixed "No content returned" sentinel. -/
theorem call_tool_result_handling (r : JVal) (c : MCPClient)
    (hc : c.client_ready = true) (tool_name : String)
    (arguments : List (String × JVal)) :
    (r.hasKey "error" = true →
      (c.call_tool (fun _ => r) tool_name arguments).1 =
        .err (r.getd "error" .jnull)) ∧
    (r.hasKey "error" = false →
      (∀ c0 rest t,
        ((r.getd "result" (.jobj [])).getd "content" (.jarr [])).asArr = c0 :: rest →
        c0.getd "text" (.jstr "") = .jstr t →
        (c.call_tool (fun _ => r) tool_name arguments).1 = .ok t) ∧
      (((r.getd "result" (.jobj [])).getd "content" (.jarr [])).asArr = [] →
        (c.call_tool (fun _ => r) tool_name arguments).1 =
          .ok "No content returned")) := by
  have hred : (c.call_tool (fun _ => r) tool_name arguments).1 =
      (if r.hasKey "error" then .err (r.getd "error" .jnull)
       else
        match ((r.getd "result" (.jobj [])).getd "content" (.jarr [])).asArr with
        | c0 :: _ => .ok ((c0.getd "text" (.jstr "")).asStr "")
        | [] => .ok "No content returned") := by
    simp [MCPClient.call_tool, ensureReady_of_ready _ _ hc,
      MCPClient.send_request, MCPClient.next_id]
  refine ⟨?_, ?_⟩
  · intro he
    rw [hred]
    simp [he]
  · intro he
    refine ⟨?_, ?_⟩
    · intro c0 rest t hcont htext
      rw [hred, hcont]
      simp [he, htext, JVal.asStr]
    · intro hcont
      rw [hred, hcont]
      simp [he]

/-- Claim C2: for every execution of `verify_customer_pin` whose result
string contains the literal substring "Customer ID:", the bridge sets the
verification flag and stores the full result string as the customer record;
when the substring is absent, flag and record are left unchanged. -/
theorem verify_pin_detection (st : SessionState) (result : String) :
    (strContains result "Customer ID:" = true →
      (applyVerificationCheck st "verify_customer_pin" result).customer_verified = true ∧
      (applyVerificationCheck st "verify_customer_pin" result).customer_info =
        some result) ∧
    (strContains result "Customer ID:" = false →
      (applyVerificationCheck st "verify_customer_pin" result).customer_verified =
        st.customer_verified ∧
      (applyVerificationCheck st "verify_customer_pin" result).customer_info =
        st.customer_info) := by
  constructor
  · intro h
    simp [applyVerificationCheck, h]
  · intro h
    simp [applyVerificationCheck, h]

/-- Claim C10: in every session state reachable from the initial state by the
state modifications found in the source (message appends, tool executions,
Clear Chat), a true verification flag implies the customer record is present. -/
theorem verified_implies_record_present (actions : List SessionAction)
    (h : (runSession initialSessionState actions).customer_verified = true) :
    (runSession initialSessionState actions).customer_info.isSome = true := by
  suffices hin : ∀ (acts : List SessionAction) (st : SessionState),
      (st.customer_verified = true → st.customer_info.isSome = true) →
      ((runSession st acts).customer_verified = true →
        (runSession st acts).customer_info.isSome = true) by
    exact hin actions initialSessionState (by intro hv; cases hv) h
  intro acts
  induction acts with
  | nil => intro st hst; exact hst
  | cons a rest ih =>
    intro st hst
    refine ih (sessionStep st a) ?_
    cases a with
    | appendUserMessage s => simpa [sessionStep] using hst
    | appendAssistantMessage s => simpa [sessionStep] using hst
    | clearChat => simp [sessionStep]
    | toolExecuted tool_name result =>
      simp only [sessionStep, applyVerificationCheck]
      split
      · simp
      · exact hst

/-- The round counter of the tool loop never exceeds its starting value plus
the remaining fuel. -/
theorem toolLoop_counter_le (next : Nat → AssistantMessage) :
    ∀ (fuel iteration : Nat) (am : AssistantMessage),
    (toolLoop next fuel iteration am).2 ≤ iteration + fuel
  | 0, iteration, am => by simp [toolLoop]
  | fuel + 1, iteration, am => by
    simp only [toolLoop]
    split
    · simp
    · have := toolLoop_counter_le next fuel (iteration + 1) (next iteration)
      omega

/-- When every provider response keeps requesting tools, the loop runs its
full fuel and ends at the last provider response. -/
theorem toolLoop_all_tools (next : Nat → AssistantMessage)
    (hnext : ∀ i, (next i).tool_calls ≠ []) :
    ∀ (fuel iteration : Nat) (am : AssistantMessage), 0 < fuel →
    am.tool_calls ≠ [] →
    toolLoop next fuel iteration am = (next (iteration + fuel - 1), iteration + fuel)
  | 0, iteration, am => by omega
  | fuel + 1, iteration, am => by
    intro _ ham
    have hne : am.tool_calls.isEmpty = false := by
      cases h : am.tool_calls with
      | nil => exact absurd h ham
      | cons x xs => rfl
    rcases Nat.eq_zero_or_pos fuel with hf | hf
    · subst hf
      simp [toolLoop, hne]
    · rw [show toolLoop next (fuel + 1) iteration am =
        toolLoop next fuel (iteration + 1) (next iteration) by simp [toolLoop, hne]]
      rw [toolLoop_all_tools next hnext fuel (iteration + 1) (next iteration) hf
        (hnext iteration)]
      have harith : iteration + 1 + fuel - 1 = iteration + (fuel + 1) - 1 := by omega
      have harith2 : iteration + 1 + fuel = iteration + (fuel + 1) := by omega
      rw [harith, harith2]

/-- Claim C3: for every user turn, the orchestrator executes at most 5
tool-execution rounds; when every model response requests tool calls and
carries no terminal text, it stops after exactly round 5 (never a 6th) and
the final text is the fallback apology string. -/
theorem round_cap_five (first : AssistantMessage) (next : Nat → AssistantMessage)
    (hfirst : first.tool_calls ≠ [])
    (hnext : ∀ i, (next i).tool_calls ≠ [])
    (hnotext : ∀ i, (next i).content = none ∨ (next i).content = some "") :
    (∀ (f : AssistantMessage) (n : Nat → AssistantMessage),
      (runToolRounds f n).2 ≤ 5) ∧
    (runToolRounds first next).2 = 5 ∧
    finalResponseText first next = apologyMessage := by
  have hrun : runToolRounds first next = (next 4, 5) := by
    have := toolLoop_all_tools next hnext 5 0 first (by omega) hfirst
    simpa [runToolRounds, max_iterations] using this
  refine ⟨?_, ?_, ?_⟩
  · intro f n
    have := toolLoop_counter_le n 5 0 f
    simpa [runToolRounds, max_iterations] using this
  · rw [hrun]
  · rw [finalResponseText, hrun]
    rcases hnotext 4 with h | h <;> simp [pyOr, h]

/-- Claim C8: a tool call whose argument encoding fails to parse is executed
with the empty argument mapping instead of aborting; every requested call of
the round still produces an outcome. -/
theorem malformed_arguments_coerced
    (parse : String → Option (List (String × JVal)))
    (runTool : String → List (String × JVal) → String)
    (tc : AssistantToolCall) (hparse : parse tc.fn_arguments = none) :
    (executeToolCall parse runTool tc).arguments = [] ∧
    (executeToolCall parse runTool tc).result = runTool tc.fn_name [] ∧
    ∀ tcs : List AssistantToolCall,
      (executeToolCalls parse runTool tcs).length = tcs.length := by
  refine ⟨?_, ?_, ?_⟩ <;>
    simp [executeToolCall, executeToolCalls, parseToolArguments, hparse]

/-- Claim C9: exporting the canonical 8-tool catalog to the OpenAI dialect
and to the Gemini function-declaration dialect yields the same 8 tool names
(with no duplicates) and, tool by tool, the same required parameter fields. -/
theorem tool_catalog_dialects_agree :
    get_openai_tools.map (fun t => t.function.name) =
      get_tool_definitions_for_gemini.function_declarations.map (fun d => d.name) ∧
    get_openai_tools.map (fun t => t.function.name) =
      ["list_products", "get_product", "search_products", "get_customer",
       "verify_customer_pin", "list_orders", "get_order", "create_order"] ∧
    get_openai_tools.length = 8 ∧
    get_tool_definitions_for_gemini.function_declarations.length = 8 ∧
    (get_openai_tools.map (fun t => t.function.name)).Nodup ∧
    get_openai_tools.map (fun t => requiredFields t.function.parameters) =
      get_tool_definitions_for_gemini.function_declarations.map
        (fun d => requiredFields d.parameters) ∧
    get_openai_tools.map (fun t => requiredFields t.function.parameters) =
      [[], ["sku"], ["query"], ["customer_id"], ["email", "pin"], [],
       ["order_id"], ["customer_id", "items"]] := by
  refine ⟨rfl, rfl, rfl, rfl, ?_, rfl, rfl⟩
  decide

/-- Claim C1, counterexample: with every attempt failing (e.g. a rate-limit
error), the code sleeps a flat 2 time units between attempts — [2, 2], not
the claimed exponential [1, 2] — and returns the generic error message, not
a distinct rate-limit message. -/
theorem rate_limit_retry_claim_refuted :
    (chatRetryLoop (fun _ => .error "RateLimitError: 429")).sleeps = [2, 2] ∧
    (chatRetryLoop (fun _ => .error "RateLimitError: 429")).sleeps ≠ [1, 2] ∧
    (chatRetryLoop (fun _ => .error "RateLimitError: 429")).attempts = 3 ∧
    (chatRetryLoop (fun _ => .error "RateLimitError: 429")).response =
      genericErrorMessage "RateLimitError: 429" := by
  refine ⟨rfl, by decide, rfl, rfl⟩

/-- Claim C1, amended: on 3 consecutive provider failures of any class
(rate-limit included), the orchestrator performs exactly 3 attempts with a
flat 2-time-unit wait between them, retries no further, and returns the
generic error message embedding the last exception text. -/
theorem retry_exhaustion_behavior (attemptResult : Nat → Except String String)
    (e0 e1 e2 : String)
    (h0 : attemptResult 0 = .error e0) (h1 : attemptResult 1 = .error e1)
    (h2 : attemptResult 2 = .error e2) :
    (chatRetryLoop attemptResult).attempts = 3 ∧
    (chatRetryLoop attemptResult).sleeps = [2, 2] ∧
    (chatRetryLoop attemptResult).response = genericErrorMessage e2 := by
  simp [chatRetryLoop, max_retries, retryFrom, h0, h1, h2]

/-- The last element of a list survives taking the last `n` elements. -/
theorem mem_lastN_append {α : Type} (l : List α) (x : α) (n : Nat) (hn : 0 < n) :
    x ∈ lastN n (l ++ [x]) := by
  unfold lastN
  have hlen : (l ++ [x]).length = l.length + 1 := by simp
  rw [hlen]
  have hle : l.length + 1 - n ≤ l.length := by omega
  rw [List.drop_append_of_le_length hle]
  exact List.mem_append_right _ (List.mem_cons_self _ _)

/-- Claim C4, counterexample: submitting "hi" on an empty history dispatches
a list containing the new user message twice, not exactly once — the handler
appends it to the history before the slice is taken, and the build step
appends it again. -/
theorem dispatched_user_message_duplicated :
    ((handleChatInput initialSessionState "hi").1.count
      { role := "user", content := "hi" } = 2) ∧
    ¬((handleChatInput initialSessionState "hi").1.count
      { role := "user", content := "hi" } = 1) := by
  have h2 : (handleChatInput initialSessionState "hi").1.count
      { role := "user", content := "hi" } = 2 := by decide
  exact ⟨h2, by rw [h2]; decide⟩

/-- Claim C4, amended: the list dispatched on the first send is [system
prompt] followed by the last 6 turns of the history with the new user message
already appended, followed by another copy of the new user message — which
therefore appears at least twice, not exactly once. -/
theorem dispatched_message_list_shape (st : SessionState) (prompt : String) :
    (handleChatInput st prompt).1 =
      { role := "system",
        content := get_system_prompt (sessionStep st (.appendUserMessage prompt)) } ::
        (lastN 6 (st.messages ++ [{ role := "user", content := prompt }]) ++
          [{ role := "user", content := prompt }]) ∧
    ∃ l1 l2 l3, (handleChatInput st prompt).1 =
      l1 ++ { role := "user", content := prompt } ::
        (l2 ++ { role := "user", content := prompt } :: l3) := by
  refine ⟨rfl, ?_⟩
  obtain ⟨s1, s2, hsplit⟩ :=
    List.append_of_mem (mem_lastN_append st.messages
      ({ role := "user", content := prompt } : Msg) 6 (by omega))
  refine ⟨(⟨"system",
    get_system_prompt (sessionStep st (.appendUserMessage prompt))⟩ : Msg) :: s1,
    s2, [], ?_⟩
  show (⟨"system",
      get_system_prompt (sessionStep st (.appendUserMessage prompt))⟩ : Msg) ::
      (lastN 6 (st.messages ++ [(⟨"user", prompt⟩ : Msg)]) ++
        [(⟨"user", prompt⟩ : Msg)]) = _
  rw [hsplit]
  simp

/-- Witness for the amended Claim C1 at a concrete always-failing attempt. -/
theorem retry_exhaustion_behavior_witness :
    (chatRetryLoop (fun _ => .error "rate limited")).attempts = 3 ∧
    (chatRetryLoop (fun _ => .error "rate limited")).sleeps = [2, 2] ∧
    (chatRetryLoop (fun _ => .error "rate limited")).response =
      genericErrorMessage "rate limited" :=
  retry_exhaustion_behavior (fun _ => .error "rate limited")
    "rate limited" "rate limited" "rate limited" rfl rfl rfl

/-- Witness for Claim C2 at concrete successful and failed results. -/
theorem verify_pin_detection_witness :
    (applyVerificationCheck initialSessionState "verify_customer_pin"
      "Customer ID: 42, Name: A").customer_verified = true ∧
    (applyVerificationCheck initialSessionState "verify_customer_pin"
      "Customer ID: 42, Name: A").customer_info =
      some "Customer ID: 42, Name: A" ∧
    (applyVerificationCheck initialSessionState "verify_customer_pin"
      "Invalid PIN").customer_verified = initialSessionState.customer_verified ∧
    (applyVerificationCheck initialSessionState "verify_customer_pin"
      "Invalid PIN").customer_info = initialSessionState.customer_info := by
  obtain ⟨h1, h2⟩ := (verify_pin_detection initialSessionState
    "Customer ID: 42, Name: A").1 (by decide)
  obtain ⟨h3, h4⟩ := (verify_pin_detection initialSessionState
    "Invalid PIN").2 (by decide)
  exact ⟨h1, h2, h3, h4⟩

/-- Witness for Claim C3 at a provider that always requests a tool call. -/
theorem round_cap_five_witness :
    (runToolRounds ⟨none, [⟨"call_1", "list_products", ""⟩]⟩
      (fun _ => ⟨none, [⟨"call_1", "list_products", ""⟩]⟩)).2 = 5 ∧
    finalResponseText ⟨none, [⟨"call_1", "list_products", ""⟩]⟩
      (fun _ => ⟨none, [⟨"call_1", "list_products", ""⟩]⟩) = apologyMessage := by
  obtain ⟨-, h2, h3⟩ := round_cap_five ⟨none, [⟨"call_1", "list_products", ""⟩]⟩
    (fun _ => ⟨none, [⟨"call_1", "list_products", ""⟩]⟩)
    (by simp) (fun i => by simp) (fun i => Or.inl rfl)
  exact ⟨h2, h3⟩

/-- Witness for Claim C6 at a concrete one-operation run. -/
theorem mcp_handshake_once_and_first_witness :
    ((((MCPClient.mk0 "http://server/mcp").runOps (fun _ => JVal.jobj [])
        [ClientOp.listToolsOp]).2.map RPCRequest.method).count "initialize" ≤ 1) ∧
    ([] : List String) = [] :=
  ⟨(mcp_handshake_once_and_first (fun _ => JVal.jobj []) "http://server/mcp"
      [ClientOp.listToolsOp]).1,
   (mcp_handshake_once_and_first (fun _ => JVal.jobj []) "http://server/mcp"
      [ClientOp.listToolsOp]).2 [] ["tools/list"] rfl⟩

/-- Witness for Claim C7 at concrete error, text, and empty-content responses. -/
theorem call_tool_result_handling_witness :
    ((({ server_url := "u", request_id := 0, client_ready := true } : MCPClient).call_tool
        (fun _ => JVal.jobj [("error", JVal.jobj [("message", JVal.jstr "Bad request")])])
        "get_product" [("sku", JVal.jstr "COM-0001")]).1 =
      ToolCallResult.err (JVal.jobj [("message", JVal.jstr "Bad request")])) ∧
    ((({ server_url := "u", request_id := 0, client_ready := true } : MCPClient).call_tool
        (fun _ => JVal.jobj [("result", JVal.jobj [("content", JVal.jarr
          [JVal.jobj [("type", JVal.jstr "text"),
                      ("text", JVal.jstr "Customer ID: 42")]])])])
        "verify_customer_pin" []).1 = ToolCallResult.ok "Customer ID: 42") ∧
    ((({ server_url := "u", request_id := 0, client_ready := true } : MCPClient).call_tool
        (fun _ => JVal.jobj [("result", JVal.jobj [("content", JVal.jarr [])])])
        "list_orders" []).1 = ToolCallResult.ok "No content returned") := by
  refine ⟨?_, ?_, ?_⟩
  · exact (call_tool_result_handling
      (JVal.jobj [("error", JVal.jobj [("message", JVal.jstr "Bad request")])])
      { server_url := "u", request_id := 0, client_ready := true } rfl
      "get_product" [("sku", JVal.jstr "COM-0001")]).1 rfl
  · exact ((call_tool_result_handling
      (JVal.jobj [("result", JVal.jobj [("content", JVal.jarr
        [JVal.jobj [("type", JVal.jstr "text"),
                    ("text", JVal.jstr "Customer ID: 42")]])])])
      { server_url := "u", request_id := 0, client_ready := true } rfl
      "verify_customer_pin" []).2 rfl).1
      (JVal.jobj [("type", JVal.jstr "text"), ("text", JVal.jstr "Customer ID: 42")])
      [] "Customer ID: 42" rfl rfl
  · exact ((call_tool_result_handling
      (JVal.jobj [("result", JVal.jobj [("content", JVal.jarr [])])])
      { server_url := "u", request_id := 0, client_ready := true } rfl
      "list_orders" []).2 rfl).2 rfl

/-- Witness for Claim C8 at a concrete unparseable argument string. -/
theorem malformed_arguments_coerced_witness :
    (executeToolCall (fun _ => none) (fun n _ => n)
      ⟨"call_1", "list_products", "not json"⟩).arguments = [] ∧
    (executeToolCall (fun _ => none) (fun n _ => n)
      ⟨"call_1", "list_products", "not json"⟩).result = "list_products" := by
  obtain ⟨h1, h2, -⟩ := malformed_arguments_coerced (fun _ => none) (fun n _ => n)
    ⟨"call_1", "list_products", "not json"⟩ rfl
  exact ⟨h1, h2⟩

/-- Witness for Claim C10 at a concrete verifying action sequence. -/
theorem verified_implies_record_present_witness :
    (runSession initialSessionState
      [SessionAction.toolExecuted "verify_customer_pin"
        "Customer ID: 42"]).customer_info.isSome = true :=
  verified_implies_record_present
    [SessionAction.toolExecuted "verify_customer_pin" "Customer ID: 42"] (by decide)
